import Mathlib

/-!
Verification of the `executor` crate (src/code/executor/src/lib.rs), a
WebSocket-facing execution gateway.  The embedding below models:

* the startup arguments with their clap defaults (`Args`, lib.rs lines 21-28);
* the readiness event (`Event`, lines 30-33);
* the channel-backed transport (`SimpleComm`, lines 41-56), with tokio's
  unbounded mpsc channels embedded as FIFO queues with a closed flag;
* the embedding entrypoint (`launch`, lines 59-75) as a trace of its
  observable effects plus the wiring of the channel pair it returns;
* the WebSocket entrypoint (`launch_websocket`, lines 77-144) as a function
  from the environment's outcomes (context construction, bind, event-receiver
  liveness, the stream of incoming connections) to the trace of observable
  actions the spawned task performs, in program order;
* the shared execution context (`Inner`, `Executor`, `ctx`, lines 146-172),
  with `Arc` embedded as a pointer paired with the pointed-to value, so that
  cloning can be seen to duplicate the reference and not the clients;
* an interleaving model of the spawned tasks (`Sys`, `SysStep`) for the
  concurrency-isolation properties: tokio tasks are independently
  schedulable units, so an acceptor step or a step of one session is
  enabled irrespective of the state of every other session.
-/

namespace ExecGateway

/-- Startup arguments (lib.rs lines 21-28).  `port` is a `u16`; we embed it
as a `Nat` and record the range bound in the theorem about the defaults. -/
structure Args where
  ip : String
  port : Nat
deriving DecidableEq, Repr

/-- The clap `default_value` attributes: `"127.0.0.1"` for `ip`
(lib.rs line 23) and `"8080"` parsed as a `u16` for `port` (line 26). -/
def Args.defaults : Args :=
  { ip := "127.0.0.1", port := 8080 }

/-- The listening address string built by `format!("{ip}:{port}")`
(lib.rs line 93). -/
def addrOf (a : Args) : String :=
  a.ip ++ ":" ++ toString a.port

/-- The readiness event type (lib.rs lines 30-33); a single variant. -/
inductive Event
  | Connected
deriving DecidableEq, Repr

/-! ## The channel-backed transport

tokio's unbounded mpsc channel is embedded as a FIFO queue together with a
`closed` flag.  For the queue held in a `SimpleComm`'s `tx` field the flag
means "the peer receiver was dropped"; for the queue behind `rx` it means
"the peer sender was dropped".  tokio guarantees: `send` fails exactly when
the receiver has been dropped and otherwise appends to the queue;
`recv().await` yields the head of the queue when one exists (even after the
sender is dropped), returns `None` when the channel is closed and empty, and
otherwise suspends. -/

/-- One unbounded mpsc channel: its queued values in FIFO order and whether
the opposite endpoint has been dropped. -/
structure MpscChan (α : Type) where
  queue : List α
  closed : Bool
deriving DecidableEq, Repr

/-- The channel-backed transport (lib.rs lines 41-44): an unbounded sender
of server packets and an unbounded receiver of client packets.  The packet
types are opaque to this crate, hence type parameters. -/
structure SimpleComm (S C : Type) where
  tx : MpscChan S
  rx : MpscChan C
deriving DecidableEq, Repr

/-- Outcome of `SimpleComm::recv` (lib.rs lines 53-55): a packet was
dequeued, or the channel is closed and drained (`None`, turned into an
error with the context message), or the call suspends awaiting a packet. -/
inductive RecvOutcome (C σ : Type)
  | got (packet : C) (comm : σ)
  | closed (msg : String)
  | pending
deriving DecidableEq, Repr

/-- `SimpleComm::send` (lib.rs lines 48-51): `self.tx.send(packet)?` fails
exactly when the peer receiver was dropped, and otherwise enqueues the
packet at the tail of the channel's queue. -/
def SimpleComm.send {S C : Type} (c : SimpleComm S C) (packet : S) :
    Except String (SimpleComm S C) :=
  if c.tx.closed then
    Except.error "channel closed"
  else
    Except.ok { c with tx := { c.tx with queue := c.tx.queue ++ [packet] } }

/-- `SimpleComm::recv` (lib.rs lines 53-55): `self.rx.recv().await` yields
the head of the inbound queue when one exists, returns `None` — mapped by
`.context "Failed to receive packet"` to an error — when the channel is
closed and empty, and suspends otherwise. -/
def SimpleComm.recv {S C : Type} (c : SimpleComm S C) :
    RecvOutcome C (SimpleComm S C) :=
  match c.rx.queue with
  | p :: rest => RecvOutcome.got p { c with rx := { c.rx with queue := rest } }
  | [] =>
    if c.rx.closed then RecvOutcome.closed "Failed to receive packet"
    else RecvOutcome.pending

/-- Sending a list of packets in order, stopping at the first failure:
the iterated form of `SimpleComm::send`. -/
def sendAll {S C : Type} (c : SimpleComm S C) : List S → Except String (SimpleComm S C)
  | [] => Except.ok c
  | p :: ps =>
    match c.send p with
    | Except.error e => Except.error e
    | Except.ok c' => sendAll c' ps

/-- Receiving `n` packets in sequence via `SimpleComm::recv`, collecting
them in arrival order; stops early if the transport yields no packet. -/
def drain {S C : Type} : SimpleComm S C → Nat → List C
  | _, 0 => []
  | c, n + 1 =>
    match c.recv with
    | RecvOutcome.got p c' => p :: drain c' n
    | RecvOutcome.closed _ => []
    | RecvOutcome.pending => []

/-! ## The shared execution context -/

/-- An `Arc<α>`: a pointer identifying the allocation, paired with the
pointed-to value.  `Arc::clone` yields a handle to the same allocation. -/
structure Arc (α : Type) where
  ptr : Nat
  val : α
deriving DecidableEq, Repr

/-- `Arc::clone`: duplicates the reference only — same allocation, same
pointed-to value. -/
def Arc.clone {α : Type} (a : Arc α) : Arc α := a

/-- The context payload (lib.rs lines 148-151): the AI-completion client
and the HTTP client, both opaque external types. -/
structure Inner (A H : Type) where
  ai : A
  req : H
deriving DecidableEq, Repr

/-- `type Ctx = Arc<Inner>` (lib.rs line 146). -/
def Ctx (A H : Type) : Type := Arc (Inner A H)

/-- The executor handle (lib.rs lines 153-156): a single `Ctx` field; its
derived `Clone` clones that `Arc`. -/
structure Executor (A H : Type) where
  ctx : Arc (Inner A H)
deriving DecidableEq, Repr

/-- The derived `Clone::clone` for `Executor`: clones the `ctx` field. -/
def Executor.clone {A H : Type} (e : Executor A H) : Executor A H :=
  { ctx := Arc.clone e.ctx }

/-- The `ctx()` constructor (lib.rs lines 159-166).
`tokio_openai::Client::simple()` is fallible (the `?`), modelled by the
`ai` argument; `reqwest::Client::new()` is infallible.  On success the
`Inner` is placed in a fresh allocation. -/
def mkCtx {A H : Type} (ai : Except String A) (req : H) (fresh : Nat) :
    Except String (Arc (Inner A H)) :=
  match ai with
  | Except.error e => Except.error e
  | Except.ok a => Except.ok { ptr := fresh, val := { ai := a, req := req } }

/-- `Executor::new` (lib.rs lines 169-171): `Ok(Self { ctx: ctx()? })`. -/
def Executor.new {A H : Type} (ai : Except String A) (req : H) (fresh : Nat) :
    Except String (Executor A H) :=
  match mkCtx ai req fresh with
  | Except.error e => Except.error e
  | Except.ok c => Except.ok { ctx := c }

/-! ## The WebSocket entrypoint as a trace of observable actions -/

/-- One incoming connection attempt as seen by the body of the accept loop
(lib.rs lines 109-140): either `listener.accept()` itself fails, or the
accept succeeds and the `accept_async` WebSocket handshake fails, or both
succeed and the peer address renders to the given string. -/
inductive ConnEvent
  | acceptErr (e : String)
  | handshakeErr (e : String)
  | connected (peer : String)
deriving DecidableEq, Repr

/-- Observable actions of the task spawned by `launch_websocket`, in
program order. -/
inductive Action
  | logInfo (msg : String)
  | logError (msg : String)
  | constructCtx
  | bindAttempt (addr : String)
  | bindSuccess (addr : String)
  | sendConnected
  | acceptConn
  | spawnSession (peer : String)
  | taskReturn
deriving DecidableEq, Repr

/-- Recognizer for the bind attempt action. -/
def Action.isBindAttempt : Action → Bool
  | Action.bindAttempt _ => true
  | _ => false

/-- Recognizer for a successful bind action. -/
def Action.isBindSuccess : Action → Bool
  | Action.bindSuccess _ => true
  | _ => false

/-- Recognizer for the readiness-event send action. -/
def Action.isSendConnected : Action → Bool
  | Action.sendConnected => true
  | _ => false

/-- Recognizer for a successful accept action. -/
def Action.isAccept : Action → Bool
  | Action.acceptConn => true
  | _ => false

/-- Recognizer for a session spawn action. -/
def Action.isSpawn : Action → Bool
  | Action.spawnSession _ => true
  | _ => false

/-- Recognizer for the task returning (the accept loop ending). -/
def Action.isTaskReturn : Action → Bool
  | Action.taskReturn => true
  | _ => false

/-- Recognizer for the context-construction action. -/
def Action.isConstructCtx : Action → Bool
  | Action.constructCtx => true
  | _ => false

/-- The accept loop (lib.rs lines 109-140), consuming incoming connection
events in order.  An `accept()` failure is logged and the task returns
(lines 112-115).  An `accept_async` handshake failure is logged and the
task returns as well (lines 120-123).  A successful upgrade logs the peer,
clones the executor and spawns a session task, then loops (lines 126-139).
An empty event list means the task is suspended in `accept()` forever. -/
def acceptLoop : List ConnEvent → List Action
  | [] => []
  | ConnEvent.acceptErr e :: _ =>
    [Action.logError e, Action.taskReturn]
  | ConnEvent.handshakeErr e :: _ =>
    [Action.acceptConn, Action.logError e, Action.taskReturn]
  | ConnEvent.connected peer :: rest =>
    Action.acceptConn ::
    Action.logInfo ("New WebSocket connection: " ++ peer) ::
    Action.spawnSession peer ::
    acceptLoop rest

/-- The body of the task spawned by `launch_websocket` (lib.rs lines
80-141) as the trace of its observable actions, as a function of the
environment: the outcome of `Executor::new` (line 83), the outcome of
`TcpListener::bind` (line 95), whether the returned event receiver is
still alive when `tx.send(Event::Connected)` runs (line 103), and the
stream of incoming connection events. -/
def launch_websocket (args : Args) (ctxRes : Except String Unit)
    (bindRes : Except String Unit) (rxAlive : Bool)
    (conns : List ConnEvent) : List Action :=
  Action.logInfo "Starting executor" ::
  Action.constructCtx ::
  match ctxRes with
  | Except.error e => [Action.logError e, Action.taskReturn]
  | Except.ok _ =>
    Action.bindAttempt (addrOf args) ::
    match bindRes with
    | Except.error e => [Action.logError e, Action.taskReturn]
    | Except.ok _ =>
      Action.bindSuccess (addrOf args) ::
      Action.sendConnected ::
      ((if rxAlive then [] else [Action.logError "Failed to send connected event."]) ++
        (Action.logInfo ("Listening on: " ++ addrOf args) :: acceptLoop conns))

/-! ## The embedding entrypoint `launch` -/

/-- Observable effects of `launch` (lib.rs lines 59-75). -/
inductive LaunchAction
  | constructCtx
  | mkChannel
  | spawnSession
deriving DecidableEq, Repr

/-- The wiring `launch` establishes on success.  Channel 1 is the pair
`(tx1, rx1)` created first (lib.rs line 65), channel 2 the pair
`(tx2, rx2)` created second (line 66).  The spawned session's transport is
`SimpleComm { tx: tx1, rx: rx2 }` (line 68); the caller receives
`(tx2, rx1)` (line 74). -/
structure LaunchWiring where
  callerTx : Nat
  callerRx : Nat
  sessionTx : Nat
  sessionRx : Nat
deriving DecidableEq, Repr

/-- `launch` (lib.rs lines 59-75) as its effect trace and result.
`Executor::new()?` runs first (line 63); on failure nothing else happens.
On success two channels are created, one session task is spawned over a
`SimpleComm` wired as described in `LaunchWiring`, and the caller gets the
complementary endpoints. -/
def launch (ctxRes : Except String Unit) :
    List LaunchAction × Except String LaunchWiring :=
  match ctxRes with
  | Except.error e => ([LaunchAction.constructCtx], Except.error e)
  | Except.ok _ =>
    ([LaunchAction.constructCtx, LaunchAction.mkChannel, LaunchAction.mkChannel,
      LaunchAction.spawnSession],
      Except.ok { callerTx := 2, callerRx := 1, sessionTx := 1, sessionRx := 2 })

/-! ## Interleaving model of the spawned tasks

Each accepted connection gets its own `tokio::spawn`ed session task
(lib.rs lines 137-139); the acceptor task itself is another independent
unit.  tokio schedules tasks independently: a step of one task is enabled
no matter the state of every other task.  A session is modelled by the
number of transport/dispatcher steps left before its loop exits, or as
`stalled` when its current dispatcher call never returns (no cancellation
or timeout exists at this layer). -/

/-- A session task: `stalled` if it is blocked forever inside its
dispatcher call, otherwise the number of steps left until its loop exits. -/
inductive Sess
  | stalled
  | steps (n : Nat)
deriving DecidableEq, Repr

/-- The system: the acceptor's remaining stream of incoming connections
and the spawned session tasks. -/
structure Sys where
  pending : List ConnEvent
  sessions : List Sess
deriving DecidableEq, Repr

/-- One scheduler step: either the acceptor accepts and upgrades the next
incoming connection and spawns a fresh session for it (enabled whatever
the session states are), or some session with work left performs one step
(enabled whatever the other sessions' states are). -/
inductive SysStep : Sys → Sys → Prop
  | accept (s : Sys) (peer : String) (rest : List ConnEvent) (k : Nat)
      (h : s.pending = ConnEvent.connected peer :: rest) :
      SysStep s { pending := rest, sessions := s.sessions ++ [Sess.steps k] }
  | work (s : Sys) (i n : Nat)
      (h : s.sessions[i]? = some (Sess.steps (n + 1))) :
      SysStep s { s with sessions := s.sessions.set i (Sess.steps n) }

/-! ## Helper lemmas -/

/-- The accept loop produces only accept/log/spawn/return actions: no
context construction, no bind attempt, no bind success, no readiness-event
send ever occurs inside it. -/
theorem acceptLoop_no_startup_actions (conns : List ConnEvent) :
    ∀ a ∈ acceptLoop conns, a.isConstructCtx = false ∧ a.isBindAttempt = false ∧
      a.isBindSuccess = false ∧ a.isSendConnected = false := by
  induction conns with
  | nil => simp [acceptLoop]
  | cons c rest ih =>
    cases c with
    | acceptErr e =>
      simp [acceptLoop, Action.isConstructCtx, Action.isBindAttempt,
        Action.isBindSuccess, Action.isSendConnected]
    | handshakeErr e =>
      simp [acceptLoop, Action.isConstructCtx, Action.isBindAttempt,
        Action.isBindSuccess, Action.isSendConnected]
    | connected peer =>
      intro a ha
      simp only [acceptLoop, List.mem_cons] at ha
      rcases ha with rfl | rfl | rfl | ha
      · exact ⟨rfl, rfl, rfl, rfl⟩
      · exact ⟨rfl, rfl, rfl, rfl⟩
      · exact ⟨rfl, rfl, rfl, rfl⟩
      · exact ih a ha

/-- Counting specializations of `acceptLoop_no_startup_actions`. -/
theorem acceptLoop_countP_startup (conns : List ConnEvent) :
    (acceptLoop conns).countP Action.isConstructCtx = 0 ∧
    (acceptLoop conns).countP Action.isBindAttempt = 0 ∧
    (acceptLoop conns).countP Action.isBindSuccess = 0 ∧
    (acceptLoop conns).countP Action.isSendConnected = 0 := by
  refine ⟨?_, ?_, ?_, ?_⟩ <;>
    rw [List.countP_eq_zero] <;>
    intro a ha <;>
    have h := acceptLoop_no_startup_actions conns a ha <;>
    simp_all

/-! ## The claims -/

/-- C9: when the `ip` and `port` arguments are not supplied, the startup
configuration defaults to the loopback host `"127.0.0.1"` and the fixed
TCP port `8080` (a value representable as a `u16`), so the default bind
address is `"127.0.0.1:8080"`. -/
theorem C9_default_args :
    Args.defaults.ip = "127.0.0.1" ∧ Args.defaults.port = 8080 ∧
    Args.defaults.port < 2 ^ 16 ∧ addrOf Args.defaults = "127.0.0.1:8080" := by
  refine ⟨rfl, rfl, by decide, by decide⟩

/-- C2: if Execution Context construction fails at startup of the
WebSocket entrypoint, the task logs the failure and returns at once:
no bind is ever attempted, no listening socket is ever bound, and the
`Connected` readiness event is never sent on the returned channel —
whatever the bind outcome, receiver liveness or connection stream would
have been. -/
theorem C2_ctx_failure_aborts_startup (args : Args) (e : String)
    (bindRes : Except String Unit) (rxAlive : Bool) (conns : List ConnEvent) :
    (launch_websocket args (Except.error e) bindRes rxAlive conns).countP
        Action.isBindAttempt = 0 ∧
    (launch_websocket args (Except.error e) bindRes rxAlive conns).countP
        Action.isBindSuccess = 0 ∧
    (launch_websocket args (Except.error e) bindRes rxAlive conns).countP
        Action.isSendConnected = 0 ∧
    launch_websocket args (Except.error e) bindRes rxAlive conns =
      [Action.logInfo "Starting executor", Action.constructCtx,
        Action.logError e, Action.taskReturn] := by
  refine ⟨?_, ?_, ?_, rfl⟩ <;>
    simp [launch_websocket, List.countP_cons, Action.isBindAttempt,
      Action.isBindSuccess, Action.isSendConnected]

/-- C10: `launch` returns an error exactly when Execution Context
construction fails; in that case its effect trace creates no channel and
spawns no session (nothing is partially started), and on success it
creates exactly the two channels of the returned endpoint pair and spawns
exactly one session, whose transport is wired complementarily to the
caller's endpoints (the session sends into the channel the caller reads,
and reads from the channel the caller sends into). -/
theorem C10_launch_atomic :
    (∀ e : String, launch (Except.error e) =
      ([LaunchAction.constructCtx], Except.error e)) ∧
    (∀ e : String,
      (launch (Except.error e)).1.countP (· == LaunchAction.mkChannel) = 0 ∧
      (launch (Except.error e)).1.countP (· == LaunchAction.spawnSession) = 0) ∧
    (launch (Except.ok ())).1.countP (· == LaunchAction.mkChannel) = 2 ∧
    (launch (Except.ok ())).1.countP (· == LaunchAction.spawnSession) = 1 ∧
    (∃ w : LaunchWiring, (launch (Except.ok ())).2 = Except.ok w ∧
      w.sessionTx = w.callerRx ∧ w.sessionRx = w.callerTx) := by
  exact ⟨fun e => rfl, fun e => ⟨rfl, rfl⟩, rfl, rfl,
    ⟨{ callerTx := 2, callerRx := 1, sessionTx := 1, sessionRx := 2 },
      rfl, rfl, rfl⟩⟩

/-- Iterated sends on an open outbound channel all succeed and append the
packets at the tail of the queue, in submission order. -/
theorem sendAll_open {S C : Type} : ∀ (ps : List S) (c : SimpleComm S C),
    c.tx.closed = false →
    sendAll c ps =
      Except.ok { c with tx := { c.tx with queue := c.tx.queue ++ ps } }
  | [], c, _ => by simp [sendAll]
  | p :: ps, c, h => by
    have hsend : c.send p =
        Except.ok { c with tx := { c.tx with queue := c.tx.queue ++ [p] } } := by
      simp [SimpleComm.send, h]
    have hrec :=
      sendAll_open ps { c with tx := { c.tx with queue := c.tx.queue ++ [p] } } h
    simp [sendAll, hsend, hrec]

/-- Draining as many packets as the inbound queue holds returns exactly
that queue, in arrival order. -/
theorem drain_queue {S C : Type} : ∀ (q : List C) (t : MpscChan S) (b : Bool),
    drain { tx := t, rx := { queue := q, closed := b } } q.length = q
  | [], _, _ => by simp [drain]
  | p :: rest, t, b => by
    have hrec := drain_queue rest t b
    simp [drain, SimpleComm.recv, hrec]

/-- C4: the channel-backed transport preserves queue order.  Submitting a
sequence of packets on an open channel appends them to the FIFO queue in
submission order, and receiving as many packets as are queued yields them
in exactly that order — so requests are received in the order sent, and a
connection's responses are emitted without reordering. -/
theorem C4_fifo_order (S C : Type) (c : SimpleComm S C) (ps : List S)
    (h : c.tx.closed = false) :
    sendAll c ps =
      Except.ok { c with tx := { c.tx with queue := c.tx.queue ++ ps } } ∧
    drain c c.rx.queue.length = c.rx.queue :=
  ⟨sendAll_open ps c h, drain_queue c.rx.queue c.tx c.rx.closed⟩

/-- C4 witness: three packets sent on an open transport end up queued as
`[1, 2, 3]`, and a transport holding `[7, 8]` drains to `[7, 8]`. -/
theorem C4_fifo_order_witness :
    sendAll
        ({ tx := { queue := [], closed := false },
           rx := { queue := [7, 8], closed := false } } : SimpleComm Nat Nat)
        [1, 2, 3] =
      Except.ok
        { tx := { queue := [1, 2, 3], closed := false },
          rx := { queue := [7, 8], closed := false } } ∧
    drain
        ({ tx := { queue := [], closed := false },
           rx := { queue := [7, 8], closed := false } } : SimpleComm Nat Nat)
        2 = [7, 8] := by
  have h := C4_fifo_order Nat Nat
    { tx := { queue := [], closed := false },
      rx := { queue := [7, 8], closed := false } } [1, 2, 3] rfl
  exact ⟨h.1, h.2⟩

/-- C5: failure classification of the channel-backed transport.  `send`
succeeds and enqueues exactly when the peer receiver is alive, and returns
a transport error exactly when the outbound channel is closed; `recv`
dequeues the head packet whenever one is queued (even after closure),
returns the "closed"-classified error (`context "Failed to receive
packet"` around `None`) exactly when the inbound channel is closed and
empty, and suspends when it is open and empty. -/
theorem C5_transport_failure_classification :
    (∀ (S C : Type) (q : List S) (r : MpscChan C) (p : S),
      SimpleComm.send { tx := { queue := q, closed := false }, rx := r } p =
        Except.ok { tx := { queue := q ++ [p], closed := false }, rx := r }) ∧
    (∀ (S C : Type) (q : List S) (r : MpscChan C) (p : S),
      SimpleComm.send { tx := { queue := q, closed := true }, rx := r } p =
        Except.error "channel closed") ∧
    (∀ (S C : Type) (t : MpscChan S) (b : Bool) (p : C) (rest : List C),
      SimpleComm.recv { tx := t, rx := { queue := p :: rest, closed := b } } =
        RecvOutcome.got p { tx := t, rx := { queue := rest, closed := b } }) ∧
    (∀ (S C : Type) (t : MpscChan S),
      @SimpleComm.recv S C { tx := t, rx := { queue := [], closed := true } } =
        RecvOutcome.closed "Failed to receive packet") ∧
    (∀ (S C : Type) (t : MpscChan S),
      @SimpleComm.recv S C { tx := t, rx := { queue := [], closed := false } } =
        RecvOutcome.pending) := by
  refine ⟨?_, ?_, ?_, ?_, ?_⟩ <;> intros <;> simp [SimpleComm.send, SimpleComm.recv]

/-- C6: listener-level failures are fatal.  An `accept()` failure is
logged and the accept task returns at once, whatever connections would
have followed; a bind failure ends startup after exactly one bind attempt
— no retry, no fallback port, no accept, no session. -/
theorem C6_listener_failures_fatal :
    (∀ (e : String) (rest : List ConnEvent),
      acceptLoop (ConnEvent.acceptErr e :: rest) =
        [Action.logError e, Action.taskReturn]) ∧
    (∀ (args : Args) (e : String) (rxAlive : Bool) (conns : List ConnEvent),
      launch_websocket args (Except.ok ()) (Except.error e) rxAlive conns =
        [Action.logInfo "Starting executor", Action.constructCtx,
          Action.bindAttempt (addrOf args), Action.logError e,
          Action.taskReturn]) ∧
    (∀ (args : Args) (e : String) (rxAlive : Bool) (conns : List ConnEvent),
      (launch_websocket args (Except.ok ()) (Except.error e) rxAlive conns).countP
          Action.isBindAttempt = 1 ∧
      (launch_websocket args (Except.ok ()) (Except.error e) rxAlive conns).countP
          Action.isBindSuccess = 0 ∧
      (launch_websocket args (Except.ok ()) (Except.error e) rxAlive conns).countP
          Action.isAccept = 0 ∧
      (launch_websocket args (Except.ok ()) (Except.error e) rxAlive conns).countP
          Action.isSpawn = 0) := by
  refine ⟨fun e rest => rfl, fun args e rxAlive conns => rfl,
    fun args e rxAlive conns => ⟨?_, ?_, ?_, ?_⟩⟩ <;>
    simp [launch_websocket, List.countP_cons, Action.isBindAttempt,
      Action.isBindSuccess, Action.isAccept, Action.isSpawn]

/-- C1 counterexample: run the listener on the default address with a
working context, a successful bind and a live observer, and feed it a
failed WebSocket handshake followed by a well-formed connection.  The
claim predicts the later well-formed connection still succeeds (a session
is spawned for it); instead the task spawns no session at all and
returns, because the handshake failure makes the accept task return
(lib.rs lines 118-124). -/
theorem C1_counterexample :
    (launch_websocket Args.defaults (Except.ok ()) (Except.ok ()) true
        [ConnEvent.handshakeErr "handshake failed",
          ConnEvent.connected "127.0.0.1:50000"]).countP Action.isSpawn = 0 ∧
    (launch_websocket Args.defaults (Except.ok ()) (Except.ok ()) true
        [ConnEvent.handshakeErr "handshake failed",
          ConnEvent.connected "127.0.0.1:50000"]).countP Action.isTaskReturn = 1 := by
  exact ⟨rfl, rfl⟩

/-- C1 amended: when the protocol-upgrade handshake for one incoming
connection fails, the failure is logged and that connection is dropped,
but the accept task then returns: the loop stops accepting, and no
subsequent connection — well-formed or not — is accepted or served
(handshake failure is listener-fatal, exactly like an accept failure). -/
theorem C1_handshake_failure_fatal (e : String) (rest : List ConnEvent) :
    acceptLoop (ConnEvent.handshakeErr e :: rest) =
      [Action.acceptConn, Action.logError e, Action.taskReturn] ∧
    (acceptLoop (ConnEvent.handshakeErr e :: rest)).countP Action.isSpawn = 0 := by
  exact ⟨rfl, rfl⟩

/-- C3: the readiness event is sent exactly once per launch — after the
single successful bind and before any connection is accepted — and a
delivery failure (observer receiver dropped) is only logged: the
accepted/spawned connections are identical whether or not the observer is
alive. -/
theorem C3_connected_event_once (args : Args) (rxAlive : Bool)
    (conns : List ConnEvent) :
    (∃ pre post,
      launch_websocket args (Except.ok ()) (Except.ok ()) rxAlive conns =
        pre ++ Action.sendConnected :: post ∧
      pre.countP Action.isSendConnected = 0 ∧
      post.countP Action.isSendConnected = 0 ∧
      pre.countP Action.isAccept = 0 ∧
      pre.countP Action.isBindSuccess = 1 ∧
      post.countP Action.isBindSuccess = 0) ∧
    (launch_websocket args (Except.ok ()) (Except.ok ()) false conns).filter
        Action.isAccept =
      (launch_websocket args (Except.ok ()) (Except.ok ()) true conns).filter
        Action.isAccept ∧
    (launch_websocket args (Except.ok ()) (Except.ok ()) false conns).filter
        Action.isSpawn =
      (launch_websocket args (Except.ok ()) (Except.ok ()) true conns).filter
        Action.isSpawn ∧
    Action.logError "Failed to send connected event." ∈
      launch_websocket args (Except.ok ()) (Except.ok ()) false conns := by
  refine ⟨⟨[Action.logInfo "Starting executor", Action.constructCtx,
      Action.bindAttempt (addrOf args), Action.bindSuccess (addrOf args)],
      (if rxAlive then []
        else [Action.logError "Failed to send connected event."]) ++
        (Action.logInfo ("Listening on: " ++ addrOf args) :: acceptLoop conns),
      rfl, rfl, ?_, rfl, rfl, ?_⟩, ?_, ?_, ?_⟩
  · cases rxAlive <;>
      simp [List.countP_append, List.countP_cons, Action.isSendConnected,
        (acceptLoop_countP_startup conns).2.2.2]
  · cases rxAlive <;>
      simp [List.countP_append, List.countP_cons, Action.isBindSuccess,
        (acceptLoop_countP_startup conns).2.2.1]
  · simp [launch_websocket, List.filter_append, List.filter_cons,
      Action.isAccept]
  · simp [launch_websocket, List.filter_append, List.filter_cons,
      Action.isSpawn]
  · simp [launch_websocket]

/-- C7: the Execution Context is constructed exactly once per launch —
as the second action of the task, hence before any bind, accept or spawn —
and cloning an `Executor` duplicates only the reference: the clone is the
very same handle, pointing at the same allocation holding the same AI and
HTTP clients. -/
theorem C7_context_constructed_once_and_shared (A H : Type) (e : Executor A H)
    (args : Args) (ctxRes bindRes : Except String Unit) (rxAlive : Bool)
    (conns : List ConnEvent) :
    Executor.clone e = e ∧
    (Executor.clone e).ctx.ptr = e.ctx.ptr ∧
    (Executor.clone e).ctx.val = e.ctx.val ∧
    (launch_websocket args ctxRes bindRes rxAlive conns).take 2 =
      [Action.logInfo "Starting executor", Action.constructCtx] ∧
    ((launch_websocket args ctxRes bindRes rxAlive conns).drop 2).countP
      Action.isConstructCtx = 0 ∧
    (launch_websocket args ctxRes bindRes rxAlive conns).countP
      Action.isConstructCtx = 1 := by
  refine ⟨rfl, rfl, rfl, ?_, ?_, ?_⟩
  · cases ctxRes <;> cases bindRes <;> rfl
  · rcases ctxRes with e1 | u <;> rcases bindRes with e2 | v <;>
      cases rxAlive <;>
      simp [launch_websocket, List.countP_append, List.countP_cons,
        Action.isConstructCtx, (acceptLoop_countP_startup conns).1]
  · rcases ctxRes with e1 | u <;> rcases bindRes with e2 | v <;>
      cases rxAlive <;>
      simp [launch_websocket, List.countP_append, List.countP_cons,
        Action.isConstructCtx, (acceptLoop_countP_startup conns).1]

/-- A session with steps left can run to completion on its own: from any
system state in which session `j` has `n` steps left and session `i` is
stalled in its dispatcher, there is a scheduler run after which `j` has
finished its steps while `i` is still stalled and the acceptor's pending
stream is untouched — one task's progress needs nothing from any other. -/
theorem session_progress (n : Nat) : ∀ (s : Sys) (i j : Nat), i ≠ j →
    s.sessions[i]? = some Sess.stalled →
    s.sessions[j]? = some (Sess.steps n) →
    ∃ s', Relation.ReflTransGen SysStep s s' ∧
      s'.sessions[j]? = some (Sess.steps 0) ∧
      s'.sessions[i]? = some Sess.stalled ∧
      s'.pending = s.pending := by
  induction n with
  | zero => exact fun s i j _ hi hj => ⟨s, Relation.ReflTransGen.refl, hj, hi, rfl⟩
  | succ n ih =>
    intro s i j hij hi hj
    have hstep : SysStep s { s with sessions := s.sessions.set j (Sess.steps n) } :=
      SysStep.work s j n hj
    have hlt : j < s.sessions.length := by
      rcases List.getElem?_eq_some.mp hj with ⟨h, _⟩
      exact h
    have hj' : (s.sessions.set j (Sess.steps n))[j]? = some (Sess.steps n) :=
      List.getElem?_set_eq_of_lt (Sess.steps n) hlt
    have hi' : (s.sessions.set j (Sess.steps n))[i]? = some Sess.stalled := by
      rw [List.getElem?_set_ne (fun hji => hij hji.symm)]
      exact hi
    obtain ⟨s', hrun, h1, h2, h3⟩ :=
      ih { s with sessions := s.sessions.set j (Sess.steps n) } i j hij hi' hj'
    exact ⟨s', Relation.ReflTransGen.head hstep hrun, h1, h2, h3⟩

/-- C8: sessions are independent concurrent units.  (1) The acceptor's
step is enabled whatever the states of the already-spawned sessions — it
never waits for any session to finish before accepting the next
connection; (2) in the accept loop's trace, the continuation after
spawning a session is `acceptLoop rest`, taking no input whatsoever from
the spawned session; (3) a session with work left can always run to
completion while another session sits stalled forever in its dispatcher
call — the stall blocks only its own session. -/
theorem C8_sessions_independent :
    (∀ (sessions : List Sess) (peer : String) (rest : List ConnEvent) (k : Nat),
      SysStep { pending := (ConnEvent.connected peer :: rest), sessions := sessions }
        { pending := rest, sessions := sessions ++ [Sess.steps k] }) ∧
    (∀ (peer : String) (rest : List ConnEvent),
      acceptLoop (ConnEvent.connected peer :: rest) =
        Action.acceptConn ::
          Action.logInfo ("New WebSocket connection: " ++ peer) ::
          Action.spawnSession peer :: acceptLoop rest) ∧
    (∀ (s : Sys) (i j n : Nat), i ≠ j →
      s.sessions[i]? = some Sess.stalled →
      s.sessions[j]? = some (Sess.steps n) →
      ∃ s', Relation.ReflTransGen SysStep s s' ∧
        s'.sessions[j]? = some (Sess.steps 0) ∧
        s'.sessions[i]? = some Sess.stalled ∧
        s'.pending = s.pending) :=
  ⟨fun _sessions peer rest k => SysStep.accept _ peer rest k rfl,
    fun _ _ => rfl,
    fun s i j n hij hi hj => session_progress n s i j hij hi hj⟩

/-- C8 witness: starting from a system whose session 0 is stalled forever
and whose session 1 has two round-trip steps left, the scheduler can run
session 1 to completion while session 0 stays stalled. -/
theorem C8_sessions_independent_witness :
    ∃ s', Relation.ReflTransGen SysStep
        { pending := [], sessions := [Sess.stalled, Sess.steps 2] } s' ∧
      s'.sessions[1]? = some (Sess.steps 0) ∧
      s'.sessions[0]? = some Sess.stalled ∧
      s'.pending = ([] : List ConnEvent) :=
  C8_sessions_independent.2.2
    { pending := [], sessions := [Sess.stalled, Sess.steps 2] } 0 1 2
    (by decide) rfl rfl

end ExecGateway
